import Mathlib

/-!
Shallow embedding of the noknok authentication gateway (Go) for claim
verification.  The embedding models the relational store as lists of rows,
time as a natural-number clock, and the randomness consumed by the session
manager (tokens, UUIDs, generated row ids) as explicit parameters.  SQL
queries are translated row-by-row: `LIKE '%' || x || '%'` becomes substring
containment (SQL wildcard characters inside `x` are not modelled; hosts are
plain strings), `LIMIT 1` without `ORDER BY` picks the first row in list
order, and `UNIQUE` columns appear as hypotheses where a claim needs them.
Timestamp columns that no claim observes (`created_at`/`updated_at` on users,
`last_seen` on sessions) and the detached fire-and-forget `last_seen` update
in `Validate` (which never affects the returned value) are omitted.
-/

namespace NokNok

/-- Row of the `users` table (src/internal/database/queries.go, `User`;
schema in src/internal/database/schema.go). -/
structure UserRow where
  id : Int
  did : String
  handle : String
  username : String
  role : String
deriving DecidableEq

/-- Row of the `services` table (src/internal/database/queries.go, `Service`). -/
structure ServiceRow where
  id : Int
  slug : String
  name : String
  description : String
  url : String
  iconURL : String
  adminRole : String
  enabled : Bool
  isPublic : Bool
deriving DecidableEq

/-- Row of the `grants` table (src/internal/database/queries.go, `Grant`). -/
structure GrantRow where
  id : Int
  userId : Int
  serviceId : Int
  role : String
deriving DecidableEq

/-- Row of the `sessions` table (src/unnamed/part_001, `Session`, grouped
revision): token, DID, handle snapshot, username snapshot, group id,
user id, creation time and expiry. -/
structure SessionRow where
  id : Int
  token : String
  did : String
  handle : String
  username : String
  groupId : String
  userId : Int
  createdAt : Nat
  expiresAt : Nat
deriving DecidableEq

/-- Row of the `user_identities` table touched opportunistically by
session `Create` (src/unnamed/part_001 line 244). -/
structure IdentityRow where
  did : String
  handle : String
deriving DecidableEq

/-- The relational store: one list of rows per table. -/
structure DBState where
  users : List UserRow
  services : List ServiceRow
  grants : List GrantRow
  sessions : List SessionRow
  identities : List IdentityRow
deriving DecidableEq

/-! ### String helpers (Go `strings` / `net/url` operations) -/

/-- Whether `pat` occurs at the start of `l` (Go `strings.HasPrefix` on rune
lists). -/
def leadsChars : List Char → List Char → Bool
  | [], _ => true
  | _ :: _, [] => false
  | a :: as, b :: bs => a == b && leadsChars as bs

/-- Whether `pat` occurs somewhere inside `l`. -/
def insideChars (pat : List Char) : List Char → Bool
  | [] => pat.isEmpty
  | b :: bs => leadsChars pat (b :: bs) || insideChars pat bs

/-- Go `strings.Contains s pat`; also models SQL
`s LIKE '%' || pat || '%'` for a wildcard-free `pat`. -/
def strContainsSub (s pat : String) : Bool :=
  insideChars pat.toList s.toList

/-- Go `strings.HasPrefix s pat`. -/
def strStartsWith (s pat : String) : Bool :=
  leadsChars pat.toList s.toList

/-- Go `strings.HasSuffix s pat`. -/
def strEndsWith (s pat : String) : Bool :=
  leadsChars pat.toList.reverse s.toList.reverse

/-- UTF-8 encoding of one code point, as byte values (Go strings are byte
slices; `url.QueryEscape` walks bytes). -/
def utf8Bytes (c : Char) : List Nat :=
  let n := c.toNat
  if n < 0x80 then [n]
  else if n < 0x800 then [0xC0 + n / 64, 0x80 + n % 64]
  else if n < 0x10000 then [0xE0 + n / 4096, 0x80 + (n / 64) % 64, 0x80 + n % 64]
  else [0xF0 + n / 262144, 0x80 + (n / 4096) % 64, 0x80 + (n / 64) % 64, 0x80 + n % 64]

/-- UTF-8 bytes of a string. -/
def strUTF8 (s : String) : List Nat :=
  s.toList.foldr (fun c acc => utf8Bytes c ++ acc) []

/-- Uppercase hexadecimal digit. -/
def hexDigitUpper (n : Nat) : Char :=
  if n < 10 then Char.ofNat (48 + n) else Char.ofNat (55 + n)

/-- One byte under Go `url.QueryEscape`: space becomes `+`, unreserved bytes
(alphanumerics and `-._~`) stay, every other byte is percent-encoded. -/
def queryEscapeByte (n : Nat) : String :=
  if n = 32 then "+"
  else if (65 ≤ n ∧ n ≤ 90) ∨ (97 ≤ n ∧ n ≤ 122) ∨ (48 ≤ n ∧ n ≤ 57)
      ∨ n = 45 ∨ n = 95 ∨ n = 46 ∨ n = 126 then
    String.singleton (Char.ofNat n)
  else
    "%" ++ String.singleton (hexDigitUpper (n / 16))
        ++ String.singleton (hexDigitUpper (n % 16))

/-- Go `url.QueryEscape`. -/
def queryEscape (s : String) : String :=
  String.join ((strUTF8 s).map queryEscapeByte)

/-! ### Cookies and the session manager (src/unnamed/part_001, grouped revision) -/

/-- Name of the session cookie (src/unnamed/part_001 line 181). -/
def cookieName : String := "noknok_session"

/-- An HTTP cookie as the Go code builds it; `expires` is the `Expires`
attribute when set, `maxAge` the `MaxAge` attribute when set. -/
structure Cookie where
  name : String
  value : String
  path : String
  domain : String
  expires : Option Nat
  maxAge : Option Int
  httpOnly : Bool
  secure : Bool
  sameSite : String
deriving DecidableEq

/-- Session-manager configuration (src/unnamed/part_001, `Manager` fields). -/
structure MgrCfg where
  ttl : Nat
  cookieDomain : String
  secure : Bool
deriving DecidableEq

/-- Model of `Manager.makeCookie` (src/unnamed/part_001 lines 451-462). -/
def makeCookie (m : MgrCfg) (token : String) (expiresAt : Nat) : Cookie :=
  { name := cookieName, value := token, path := "/", domain := m.cookieDomain,
    expires := some expiresAt, maxAge := none, httpOnly := true,
    secure := m.secure, sameSite := "Lax" }

/-- Model of `Manager.ClearCookie` (src/unnamed/part_001 lines 377-388). -/
def clearCookie (m : MgrCfg) : Cookie :=
  { name := cookieName, value := "", path := "/", domain := m.cookieDomain,
    expires := none, maxAge := some (-1), httpOnly := true,
    secure := m.secure, sameSite := "Lax" }

/-- Model of `Manager.MakeCookieForDomain` (src/unnamed/part_001 lines 424-435). -/
def makeCookieForDomain (m : MgrCfg) (token : String) (expiresAt : Nat)
    (domain : String) : Cookie :=
  { name := cookieName, value := token, path := "/", domain := domain,
    expires := some expiresAt, maxAge := none, httpOnly := true,
    secure := m.secure, sameSite := "Lax" }

/-- Username snapshot taken by `Create`: the user row's username, or `""`
when the lookup finds no row (the Go code ignores the query error and keeps
the zero value; src/unnamed/part_001 lines 231-232). -/
def usernameOf (st : DBState) (userID : Int) : String :=
  ((st.users.find? (fun u => u.id == userID)).map (fun u => u.username)).getD ""

/-- Model of `Manager.Create` (src/unnamed/part_001 lines 217-252).  `token` and
`uuid` stand for the generated random token and UUID v4; `newID` for the
identity column value the insert produces.  The insert fails when the token
collides with an existing row (`token TEXT NOT NULL UNIQUE` in the schema).
The opportunistic `user_identities` handle update ignores errors. -/
def sessionCreate (m : MgrCfg) (st : DBState) (now : Nat) (token uuid : String)
    (newID userID : Int) (did handle groupID : String) :
    Except String (DBState × Cookie) :=
  let groupID' := if groupID == "" then uuid else groupID
  let username := usernameOf st userID
  let expiresAt := now + m.ttl
  if st.sessions.any (fun s => s.token == token) then
    .error "insert session: unique constraint"
  else
    let row : SessionRow :=
      { id := newID, token := token, did := did, handle := handle,
        username := username, groupId := groupID', userId := userID,
        createdAt := now, expiresAt := expiresAt }
    let identities' := st.identities.map
      (fun i => if i.did == did then { i with handle := handle } else i)
    .ok ({ st with sessions := st.sessions ++ [row], identities := identities' },
         makeCookie m token expiresAt)

/-- Model of `Manager.Validate` (src/unnamed/part_001 lines 255-273): the single
query `WHERE token = $1 AND expires_at > now()`.  The detached `last_seen`
update never affects the returned value and is not modelled. -/
def sessionValidate (st : DBState) (now : Nat) (token : String) :
    Option SessionRow :=
  st.sessions.find? (fun s => s.token == token && decide (now < s.expiresAt))

/-- Model of `Manager.GroupHasDID` (src/unnamed/part_001 lines 302-316): live
sessions only; returns the session id and token on a hit. -/
def groupHasDID (st : DBState) (now : Nat) (groupID did : String) :
    Option (Int × String) :=
  if groupID == "" then none
  else
    (st.sessions.find? (fun s =>
      s.groupId == groupID && s.did == did && decide (now < s.expiresAt))).map
      (fun s => (s.id, s.token))

/-- Model of `Manager.SwitchTo` (src/unnamed/part_001 lines 319-330). -/
def sessionSwitchTo (m : MgrCfg) (st : DBState) (now : Nat) (groupID : String)
    (sessionID : Int) : Option Cookie :=
  (st.sessions.find? (fun s =>
    s.id == sessionID && s.groupId == groupID && decide (now < s.expiresAt))).map
    (fun s => makeCookie m s.token s.expiresAt)

/-- Model of `Manager.DestroyOne` (src/unnamed/part_001 lines 334-359): delete
`WHERE id = $1 AND group_id = $2`; if `wasActive`, re-issue a cookie for the
live session of the group with the least `created_at`
(`ORDER BY created_at LIMIT 1`; ties resolve to the first such row), or the
clear-cookie when none remains. -/
def sessionDestroyOne (m : MgrCfg) (st : DBState) (now : Nat) (groupID : String)
    (sessionID : Int) (wasActive : Bool) : DBState × Option Cookie :=
  let sessions' :=
    st.sessions.filter (fun s => !(s.id == sessionID && s.groupId == groupID))
  let st' := { st with sessions := sessions' }
  if !wasActive then (st', none)
  else
    match (sessions'.filter (fun s =>
        s.groupId == groupID && decide (now < s.expiresAt))).argmin
        (fun s => s.createdAt) with
    | some s => (st', some (makeCookie m s.token s.expiresAt))
    | none => (st', some (clearCookie m))

/-! ### Store queries used by the decision loop (src/internal/database/queries.go) -/

/-- Model of `DB.GetServiceByHost` (queries.go lines 280-291):
`WHERE url LIKE '%' || $1 || '%' LIMIT 1`; no match yields no row. -/
def getServiceByHost (st : DBState) (host : String) : Option ServiceRow :=
  st.services.find? (fun s => strContainsSub s.url host)

/-- Model of `DB.GetUserServiceRole` (queries.go lines 296-318).  The query left-joins
the (at most one, `LIMIT 1`) service whose URL contains the host and that
service's grant for the user; `COALESCE(g.role, '')` and
`COALESCE(s.admin_role, 'admin')` supply the defaults when the joined rows
are absent (`admin_role` is `NOT NULL` in the schema, so the coalesce fires
only when no service matched).  A missing user row is the query's no-rows
error. -/
def getUserServiceRole (st : DBState) (did host : String) :
    Except String String :=
  match st.users.find? (fun u => u.did == did) with
  | none => .error "no rows in result set"
  | some u =>
    let matched := getServiceByHost st host
    let grantRole :=
      match matched with
      | some s =>
        (((st.grants.find? (fun g => g.userId == u.id && g.serviceId == s.id)).map
          (fun g => g.role)).getD "")
      | none => ""
    let adminRole :=
      match matched with
      | some s => s.adminRole
      | none => "admin"
    if u.role == "owner" || u.role == "admin" then .ok adminRole
    else if grantRole != "" then .ok grantRole
    else .ok ""

/-! ### Forward-auth decision loop

Embedded from `handleAuth` in src/unnamed/part_003 lines 22-111 (identical in
src/unnamed/part_004; src/internal/server/auth.go is an earlier revision of
the same function differing only in the disabled-service redirect target,
and the current revision is the one whose `/disabled` route and
`handleDisabled` handler are registered in src/unnamed/part_006). -/

/-- A forward-auth request: the forwarded metadata headers and the session
cookie value when the request carries one. -/
structure AuthRequest where
  xForwardedHost : String
  xForwardedAccept : String
  accept : String
  xForwardedProto : String
  xForwardedUri : String
  authorization : String
  xForwardedAuthorization : String
  cookieValue : Option String
deriving DecidableEq

/-- A forward-auth response: status, optional redirect `Location`, and the
identity headers set on the response. -/
structure AuthResponse where
  status : Nat
  location : Option String
  headers : List (String × String)
deriving DecidableEq

/-- First header with the given name, if any. -/
def getHeader (r : AuthResponse) (name : String) : Option String :=
  (r.headers.find? (fun h => h.1 == name)).map (fun h => h.2)

/-- The `Accept` value the handler inspects: `X-Forwarded-Accept`, falling
back to `Accept` when empty (part_003 lines 29-32, 50-53, 82-85). -/
def effectiveAccept (req : AuthRequest) : String :=
  if req.xForwardedAccept != "" then req.xForwardedAccept else req.accept

/-- Service gate (part_003 lines 26-38): when the forwarded host maps to a
disabled service, HTML clients are redirected to the disabled notice and all
others get 503; otherwise the gate passes. -/
def disabledGate (st : DBState) (publicURL : String) (req : AuthRequest) :
    Option AuthResponse :=
  if req.xForwardedHost == "" then none
  else
    match getServiceByHost st req.xForwardedHost with
    | none => none
    | some svc =>
      if svc.enabled then none
      else if strContainsSub (effectiveAccept req) "text/html" then
        some { status := 302,
               location := some (publicURL ++ "/disabled?service=" ++ queryEscape svc.name),
               headers := [] }
      else
        some { status := 503, location := none, headers := [] }

/-- Identity headers emitted on allow (part_003 lines 62-66):
`X-User-DID`, `X-User-Handle`, and `X-WEBAUTH-USER` iff the username
snapshot is non-empty. -/
def identityHeaders (sess : SessionRow) : List (String × String) :=
  ("X-User-DID", sess.did) :: ("X-User-Handle", sess.handle) ::
    (if sess.username != "" then [("X-WEBAUTH-USER", sess.username)] else [])

/-- Deny response on a policy miss (part_003 lines 47-58): HTML clients are
redirected to the portal root, others get 403. -/
def denyResponse (publicURL : String) (req : AuthRequest) : AuthResponse :=
  if strContainsSub (effectiveAccept req) "text/html" then
    { status := 302, location := some (publicURL ++ "/"), headers := [] }
  else
    { status := 403, location := none, headers := [] }

/-- Session branch (part_003 lines 40-69): with a non-empty cookie whose
token validates, the policy engine is consulted when a host is forwarded;
a role error or empty role denies, otherwise 200 with the identity headers
(`X-User-Role` first). -/
def sessionBranch (st : DBState) (now : Nat) (publicURL : String)
    (req : AuthRequest) : Option AuthResponse :=
  match req.cookieValue with
  | none => none
  | some tok =>
    if tok == "" then none
    else
      match sessionValidate st now tok with
      | none => none
      | some sess =>
        if req.xForwardedHost != "" then
          match getUserServiceRole st sess.did req.xForwardedHost with
          | .error _ => some (denyResponse publicURL req)
          | .ok role =>
            if role == "" then some (denyResponse publicURL req)
            else some { status := 200, location := none,
                        headers := ("X-User-Role", role) :: identityHeaders sess }
        else
          some { status := 200, location := none, headers := identityHeaders sess }

/-- Model of `handleAuth` (part_003 lines 22-111): service gate, then session branch,
then the Authorization-header passthrough, then the client-shape branch
(401 for non-HTML), then the browser redirect to the login page.  The Go
code re-reads `X-Forwarded-Host` when `host` is empty (lines 95-97), which
reads the same header and cannot change it. -/
def handleAuth (st : DBState) (now : Nat) (publicURL : String)
    (req : AuthRequest) : AuthResponse :=
  match disabledGate st publicURL req with
  | some r => r
  | none =>
    match sessionBranch st now publicURL req with
    | some r => r
    | none =>
      if req.xForwardedAuthorization != "" || req.authorization != "" then
        { status := 200, location := none, headers := [] }
      else if !(strContainsSub (effectiveAccept req) "text/html") then
        { status := 401, location := none, headers := [] }
      else
        let scheme := if req.xForwardedProto == "" then "https" else req.xForwardedProto
        let host := req.xForwardedHost
        let target :=
          if host != "" then scheme ++ "://" ++ host ++ req.xForwardedUri else ""
        let loginURL := publicURL ++ "/login" ++
          (if target != "" then "?redirect=" ++ queryEscape target else "")
        { status := 302, location := some loginURL, headers := [] }

/-! ### Store mutations (src/internal/database/queries.go) -/

/-- Model of `DB.UpdateUserUsername` (queries.go lines 105-117): set the user row's
username, then propagate the new value to every session of that DID with
`expires_at > now()`.  The subquery `(SELECT did FROM users WHERE id = $2)`
runs against the already-updated users table; when the id matches no user it
is NULL and the session update touches no row. -/
def updateUserUsername (st : DBState) (now : Nat) (id : Int)
    (username : String) : DBState :=
  let users' := st.users.map
    (fun u => if u.id == id then { u with username := username } else u)
  let sessions' :=
    match (users'.find? (fun u => u.id == id)).map (fun u => u.did) with
    | none => st.sessions
    | some d => st.sessions.map
        (fun s =>
          if s.did == d && decide (now < s.expiresAt) then
            { s with username := username }
          else s)
  { st with users := users', sessions := sessions' }

/-- Model of `DB.UpdateUserRole` (queries.go lines 99-103). -/
def updateUserRole (st : DBState) (id : Int) (role : String) : DBState :=
  let users' :=
    st.users.map (fun u => if u.id == id then { u with role := role } else u)
  { st with users := users' }

/-- Model of `DB.DeleteUser` (queries.go lines 119-122) with the schema's
`ON DELETE CASCADE` on grants. -/
def deleteUser (st : DBState) (id : Int) : DBState :=
  let users' := st.users.filter (fun u => !(u.id == id))
  let grants' := st.grants.filter (fun g => !(g.userId == id))
  { st with users := users', grants := grants' }

/-! ### Admin surface (src/internal/server/admin_api.go, second revision) -/

/-- Model of `handleUpdateUserRole` (admin_api.go lines 420-460), modelled from the
point where the URL id parameter parsed and the JSON body bound (both
failures answer 400 without touching the store): invalid role → 400;
non-owner caller assigning a non-`user` role → 403; target id belonging to
the user whose DID is the configured `OWNER_DID` → 403; otherwise the role
is updated and the handler answers 200. -/
def handleUpdateUserRole (st : DBState) (ownerDID : String) (caller : UserRow)
    (id : Int) (role : String) : Nat × DBState :=
  if !(role == "user" || role == "admin" || role == "owner") then (400, st)
  else if caller.role != "owner" && role != "user" then (403, st)
  else if st.users.any (fun u => u.id == id && u.did == ownerDID) then (403, st)
  else (200, updateUserRole st id role)

/-- Model of `handleDeleteUser` (admin_api.go lines 488-525), modelled from the point
where the id parameter parsed: self-deletion → 403; target with the seed
owner's DID → 403; non-owner caller deleting a non-`user` target → 403;
otherwise the row is deleted and the handler answers 204.  The Go loop
breaks at the first user row with the target id. -/
def handleDeleteUser (st : DBState) (ownerDID : String) (caller : UserRow)
    (id : Int) : Nat × DBState :=
  if id == caller.id then (403, st)
  else
    match st.users.find? (fun u => u.id == id) with
    | some u =>
      if u.did == ownerDID then (403, st)
      else if caller.role != "owner" && u.role != "user" then (403, st)
      else (204, deleteUser st id)
    | none => (204, deleteUser st id)

/-! ### OAuth callback (src/internal/server/login.go lines 62-132) -/

/-- Clear-cookie for the `noknok_redirect` cookie as the callback builds it
(login.go lines 100 and 124-129): only name, empty value, path and
`MaxAge = -1` are set. -/
def clearRedirectCookie : Cookie :=
  { name := "noknok_redirect", value := "", path := "/", domain := "",
    expires := none, maxAge := some (-1), httpOnly := false, secure := false,
    sameSite := "" }

/-- Post-login destination and redirect-cookie cleanup (login.go lines
95-101 and 118-130): default to the portal root; a non-empty
`noknok_redirect` cookie that passes `isAllowedRedirect` overrides it and is
cleared either way.  `allowedRedirect` stands for `isAllowedRedirect`, whose
URL parsing is outside this embedding and which the relevant claim
quantifies over. -/
def callbackDest (publicURL : String) (redirectCookie : Option String)
    (allowedRedirect : String → Bool) : String × List Cookie :=
  match redirectCookie with
  | some rv =>
    if rv != "" then
      ((if allowedRedirect rv then rv else publicURL ++ "/"), [clearRedirectCookie])
    else (publicURL ++ "/", [])
  | none => (publicURL ++ "/", [])

/-- Outcome of the callback handler: the store after the request, the
response status and `Location`, and the cookies set on the response in
order. -/
structure CallbackResult where
  state : DBState
  status : Nat
  location : String
  setCookies : List Cookie
deriving DecidableEq

/-- Model of `handleOAuthCallback` (login.go lines 62-132).  `cb` is the outcome of
`oauth.HandleCallback`; `cookieValue` the request's session cookie;
`redirectCookie` the `noknok_redirect` cookie; `tok`, `uuid` and `newID` the
randomness and identity column consumed on session creation.  The gate at
lines 69-78 admits only DIDs with an existing user row.  The repository's
`Create` call passes (did, handle, groupID); the grouped `Create` of
src/unnamed/part_001 additionally snapshots by user id, which the embedding
supplies as the matched user row's id (the gate guarantees the row exists).
-/
def handleOAuthCallback (m : MgrCfg) (st : DBState) (now : Nat)
    (publicURL : String) (cb : Except Unit (String × String))
    (cookieValue : Option String) (redirectCookie : Option String)
    (allowedRedirect : String → Bool) (tok uuid : String) (newID : Int) :
    CallbackResult :=
  match cb with
  | .error _ =>
    { state := st, status := 302,
      location := publicURL ++ "/login?error=" ++
        queryEscape "Authentication failed. Please try again.",
      setCookies := [] }
  | .ok (did, resolvedHandle) =>
    if !(st.users.any (fun u => u.did == did)) then
      { state := st, status := 302,
        location := publicURL ++ "/login?error=" ++
          queryEscape "Access denied. You are not authorized.",
        setCookies := [] }
    else
      let groupAndSwitch : String ⊕ CallbackResult :=
        match cookieValue with
        | none => .inl ""
        | some v =>
          if v == "" then .inl ""
          else
            match sessionValidate st now v with
            | none => .inl ""
            | some existingSess =>
              match groupHasDID st now existingSess.groupId did with
              | none => .inl existingSess.groupId
              | some (existingID, _) =>
                let switchCookies :=
                  match sessionSwitchTo m st now existingSess.groupId existingID with
                  | some c => [c]
                  | none => []
                let dc := callbackDest publicURL redirectCookie allowedRedirect
                .inr { state := st, status := 302, location := dc.1,
                       setCookies := switchCookies ++ dc.2 }
      match groupAndSwitch with
      | .inr r => r
      | .inl groupID =>
        let userID :=
          (((st.users.find? (fun u => u.did == did)).map (fun u => u.id)).getD 0)
        match sessionCreate m st now tok uuid newID userID did resolvedHandle groupID with
        | .error _ =>
          { state := st, status := 302,
            location := publicURL ++ "/login?error=" ++
              queryEscape "Internal error. Please try again.",
            setCookies := [] }
        | .ok (st', ck) =>
          let dc := callbackDest publicURL redirectCookie allowedRedirect
          { state := st', status := 302, location := dc.1,
            setCookies := ck :: dc.2 }

/-! ### Cross-domain relay (src/unnamed/part_007) and its config helper -/

/-- Server configuration fields the relay consults
(src/internal/config/config.go). -/
structure ServerCfg where
  publicURL : String
  cookieDomain : String
  cookieDomains : List String
deriving DecidableEq

/-- Chars of `host` before its last colon (Go
`host[:strings.LastIndex(host, ":")]`), as used by `DomainForHost`. -/
def stripPortChars (l : List Char) : List Char :=
  if l.contains ':' then ((l.reverse.dropWhile (fun c => c != ':')).drop 1).reverse
  else l

/-- Model of `Config.DomainForHost` (config.go lines 96-108): strip any port, return
the first configured domain matching exactly (without its leading dot) or as
a dotted suffix, defaulting to the primary cookie domain. -/
def domainForHost (cfg : ServerCfg) (host : String) : String :=
  let h := String.mk (stripPortChars host.toList)
  match cfg.cookieDomains.find? (fun d =>
      h == String.mk (if strStartsWith d "." then d.toList.drop 1 else d.toList)
      || strEndsWith h d) with
  | some d => d
  | none => cfg.cookieDomain

/-- Outcome of the relay endpoint: status, optional redirect `Location` and
the session cookie set, if any. -/
structure RelayResult where
  status : Nat
  location : Option String
  cookie : Option Cookie
deriving DecidableEq

/-- Model of `handleRelay` (src/unnamed/part_007 lines 15-42): empty token → 400;
token failing `Validate` → 302 to the login page; otherwise set the session
cookie for the matching domain and redirect to `r` iff it starts with `/`,
else to `/`. -/
def handleRelay (m : MgrCfg) (cfg : ServerCfg) (st : DBState) (now : Nat)
    (host tokenParam redirectParam : String) : RelayResult :=
  if tokenParam == "" then { status := 400, location := none, cookie := none }
  else
    match sessionValidate st now tokenParam with
    | none =>
      { status := 302, location := some (cfg.publicURL ++ "/login"), cookie := none }
    | some sess =>
      let domain := domainForHost cfg host
      let ck := makeCookieForDomain m tokenParam sess.expiresAt domain
      let redirect :=
        if redirectParam == "" || !(strStartsWith redirectParam "/") then "/"
        else redirectParam
      { status := 302, location := some redirect, cookie := some ck }

/-! ### Concrete fixtures used by witnesses and counterexamples -/

/-- Empty store. -/
def st0 : DBState := ⟨[], [], [], [], []⟩

/-- A small manager configuration. -/
def mgr0 : MgrCfg := ⟨10, ".example.test", true⟩

/-- A small server configuration. -/
def cfg0 : ServerCfg := ⟨"http://p", ".example.test", []⟩

/-! ### Claim theorems -/

/-- C4: a token validates iff its row exists and is unexpired.  Under the
schema's `token TEXT NOT NULL UNIQUE` constraint: every stored session with
`expires_at ≤ now` fails `Validate`, every token without a row fails
`Validate`, and a successful `Validate` returns a stored row bearing that
token with `expires_at > now`. -/
theorem claim_C4_validate (st : DBState) (now : Nat)
    (huniq : ∀ s₁ ∈ st.sessions, ∀ s₂ ∈ st.sessions, s₁.token = s₂.token → s₁ = s₂) :
    (∀ s ∈ st.sessions, s.expiresAt ≤ now → sessionValidate st now s.token = none)
    ∧ (∀ tok : String, (∀ s ∈ st.sessions, s.token ≠ tok) →
        sessionValidate st now tok = none)
    ∧ (∀ tok s, sessionValidate st now tok = some s →
        s ∈ st.sessions ∧ s.token = tok ∧ now < s.expiresAt) := by
  refine ⟨?_, ?_, ?_⟩
  · intro s hs hexp
    unfold sessionValidate
    rw [List.find?_eq_none]
    intro x hx
    simp only [Bool.and_eq_true, beq_iff_eq, decide_eq_true_eq, not_and]
    intro htok hlt
    have hxs : x = s := huniq x hx s hs htok
    subst hxs
    omega
  · intro tok h
    unfold sessionValidate
    rw [List.find?_eq_none]
    intro x hx
    simp only [Bool.and_eq_true, beq_iff_eq, decide_eq_true_eq, not_and]
    intro htok
    exact absurd htok (h x hx)
  · intro tok s hfind
    have hmem := List.mem_of_find?_eq_some hfind
    have hp := List.find?_some hfind
    simp only [Bool.and_eq_true, beq_iff_eq, decide_eq_true_eq] at hp
    exact ⟨hmem, hp.1, hp.2⟩

/-- C4 witness: a concrete store with one session expired at validation time;
its token fails `Validate`. -/
theorem claim_C4_validate_witness :
    sessionValidate ⟨[], [], [], [⟨1, "tok", "did:plc:a", "a.test", "", "g1", 1, 0, 5⟩], []⟩
      7 "tok" = none :=
  (claim_C4_validate _ 7 (by decide)).1
    ⟨1, "tok", "did:plc:a", "a.test", "", "g1", 1, 0, 5⟩ (by simp) (by decide)

/-- C10: the relay endpoint sets no session cookie unless the token
validates: an empty `t` answers 400 with no cookie, and a `t` failing
`Validate` answers a 302 redirect to the login page with no cookie. -/
theorem claim_C10_relay_guard (m : MgrCfg) (cfg : ServerCfg) (st : DBState)
    (now : Nat) (host tokenParam redirectParam : String) :
    (tokenParam = "" →
      handleRelay m cfg st now host tokenParam redirectParam =
        { status := 400, location := none, cookie := none })
    ∧ (tokenParam ≠ "" → sessionValidate st now tokenParam = none →
      handleRelay m cfg st now host tokenParam redirectParam =
        { status := 302, location := some (cfg.publicURL ++ "/login"),
          cookie := none }) := by
  constructor
  · intro h
    subst h
    simp [handleRelay]
  · intro hne hval
    simp [handleRelay, hne, hval]

/-- C10 witness: both guard branches at concrete inputs — an empty token
and an unknown token against the empty store. -/
theorem claim_C10_relay_guard_witness :
    handleRelay mgr0 cfg0 st0 0 "a.example.test" "" "/x" =
      { status := 400, location := none, cookie := none }
    ∧ handleRelay mgr0 cfg0 st0 0 "a.example.test" "zzz" "/x" =
      { status := 302, location := some (cfg0.publicURL ++ "/login"),
        cookie := none } :=
  ⟨(claim_C10_relay_guard mgr0 cfg0 st0 0 "a.example.test" "" "/x").1 rfl,
   (claim_C10_relay_guard mgr0 cfg0 st0 0 "a.example.test" "zzz" "/x").2
     (by decide) (by decide)⟩

/-- C9: an OAuth callback that resolves a DID with no user row changes no
store state (in particular inserts no session), sets no cookie, and answers
a 302 redirect to the login page with an error query parameter. -/
theorem claim_C9_callback_gate (m : MgrCfg) (st : DBState) (now : Nat)
    (publicURL : String) (did handle : String)
    (cookieValue redirectCookie : Option String)
    (allowedRedirect : String → Bool) (tok uuid : String) (newID : Int)
    (hno : st.users.any (fun u => u.did == did) = false) :
    handleOAuthCallback m st now publicURL (.ok (did, handle)) cookieValue
        redirectCookie allowedRedirect tok uuid newID =
      { state := st, status := 302,
        location := publicURL ++ "/login?error=" ++
          queryEscape "Access denied. You are not authorized.",
        setCookies := [] } := by
  simp [handleOAuthCallback, hno]

/-- C9 witness: a concrete callback for an unregistered DID against the
empty store. -/
theorem claim_C9_callback_gate_witness :
    handleOAuthCallback mgr0 st0 0 "http://p" (.ok ("did:plc:x", "x.test"))
        none none (fun _ => true) "tk" "uu" 1 =
      { state := st0, status := 302,
        location := "http://p" ++ "/login?error=" ++
          queryEscape "Access denied. You are not authorized.",
        setCookies := [] } :=
  claim_C9_callback_gate mgr0 st0 0 "http://p" "did:plc:x" "x.test"
    none none (fun _ => true) "tk" "uu" 1 (by decide)

/-- Helper: `find?` with a key predicate unaffected by a row transformation
commutes with `map`. -/
theorem find?_map_same_key {α : Type} (key : α → Bool) (f : α → α)
    (hf : ∀ x, key (f x) = key x) :
    ∀ {l : List α} {u : α}, l.find? key = some u →
      (l.map f).find? key = some (f u) := by
  intro l
  induction l with
  | nil => intro u h; simp at h
  | cons a l ih =>
    intro u h
    by_cases ha : key a = true
    · rw [List.find?_cons_of_pos _ ha] at h
      injection h with h
      subst h
      have ha' : key (f a) = true := by rw [hf]; exact ha
      simp only [List.map_cons]
      rw [List.find?_cons_of_pos _ ha']
    · rw [List.find?_cons_of_neg _ ha] at h
      have ha' : ¬(key (f a) = true) := by rw [hf]; exact ha
      simp only [List.map_cons]
      rw [List.find?_cons_of_neg _ ha']
      exact ih h

/-- C5: cookie round-trip.  A successful `Create` inserts exactly one
session row, and validating the returned cookie's value at any time before
the expiry returns that row: same token, DID, handle, username snapshot,
group id (fresh UUID when the input group was empty) and expiry. -/
theorem claim_C5_roundtrip (m : MgrCfg) (st : DBState) (now : Nat)
    (tok uuid : String) (newID userID : Int) (did handle groupID : String)
    (st' : DBState) (ck : Cookie) (t : Nat)
    (hok : sessionCreate m st now tok uuid newID userID did handle groupID =
      .ok (st', ck))
    (ht : t < now + m.ttl) :
    ck.value = tok ∧
    sessionValidate st' t ck.value =
      some { id := newID, token := tok, did := did, handle := handle,
             username := usernameOf st userID,
             groupId := if groupID == "" then uuid else groupID,
             userId := userID, createdAt := now, expiresAt := now + m.ttl } := by
  simp only [sessionCreate] at hok
  split at hok
  · exact absurd hok (by simp)
  · rename_i hany
    simp only [Except.ok.injEq, Prod.mk.injEq] at hok
    obtain ⟨hst, hck⟩ := hok
    subst hst
    subst hck
    refine ⟨rfl, ?_⟩
    have hfresh : ∀ x ∈ st.sessions, (x.token == tok) = false := by
      intro x hx
      by_contra hc
      exact hany (List.any_eq_true.mpr ⟨x, hx, by
        revert hc
        cases x.token == tok <;> simp⟩)
    show (st.sessions ++ [_]).find? _ = _
    rw [List.find?_append]
    have hnone : st.sessions.find?
        (fun s => s.token == (makeCookie m tok (now + m.ttl)).value &&
          decide (t < s.expiresAt)) = none := by
      rw [List.find?_eq_none]
      intro x hx
      have := hfresh x hx
      simp only [makeCookie] at *
      simp [this]
    rw [hnone]
    simp [makeCookie, ht]

/-- C5 witness: a concrete `Create` against the empty store followed by
`Validate` of the returned cookie value one tick before expiry. -/
theorem claim_C5_roundtrip_witness :
    sessionValidate
        ⟨[], [], [], [⟨7, "tk", "did:plc:a", "a.test", "", "uu", 3, 2, 12⟩], []⟩
        11 "tk" =
      some { id := 7, token := "tk", did := "did:plc:a", handle := "a.test",
             username := usernameOf st0 3, groupId := if "" == "" then "uu" else "",
             userId := 3, createdAt := 2, expiresAt := 2 + mgr0.ttl } := by
  have h := claim_C5_roundtrip mgr0 st0 2 "tk" "uu" 7 3 "did:plc:a" "a.test" ""
    ⟨[], [], [], [⟨7, "tk", "did:plc:a", "a.test", "", "uu", 3, 2, 12⟩], []⟩
    (makeCookie mgr0 "tk" 12) 11 rfl (by decide)
  simpa using h.2

/-- C6: setting a user's username rewrites the username snapshot of every
live session of that user's DID in the same operation, and any later
`Validate` of such a session returns the new username. -/
theorem claim_C6_username_propagation (st : DBState) (now : Nat) (id : Int)
    (uname : String) (u : UserRow)
    (hu : st.users.find? (fun x => x.id == id) = some u) :
    (∀ s' ∈ (updateUserUsername st now id uname).sessions,
        s'.did = u.did → now < s'.expiresAt → s'.username = uname)
    ∧ (∀ t tok s', now ≤ t →
        sessionValidate (updateUserUsername st now id uname) t tok = some s' →
        s'.did = u.did → s'.username = uname) := by
  have hid : (u.id == id) = true := by
    have h := List.find?_some hu
    simpa using h
  have hfind2 : ((st.users.map (fun v =>
      if v.id == id then { v with username := uname } else v)).find?
      (fun x => x.id == id)).map (fun x => x.did) = some u.did := by
    rw [find?_map_same_key (fun x : UserRow => x.id == id)
      (fun v : UserRow => if v.id == id then { v with username := uname } else v)
      (fun x => by by_cases hx : (x.id == id) = true <;> simp [hx]) hu]
    simp [hid]
  have hupd : (updateUserUsername st now id uname).sessions
      = st.sessions.map (fun s =>
          if s.did == u.did && decide (now < s.expiresAt) then
            { s with username := uname } else s) := by
    simp only [updateUserUsername]
    rw [hfind2]
  have h1 : ∀ s' ∈ (updateUserUsername st now id uname).sessions,
      s'.did = u.did → now < s'.expiresAt → s'.username = uname := by
    intro s' hs' hsd hlive
    rw [hupd] at hs'
    obtain ⟨s, hs, hmap⟩ := List.mem_map.mp hs'
    by_cases hc : (s.did == u.did && decide (now < s.expiresAt)) = true
    · rw [if_pos hc] at hmap
      rw [← hmap]
    · rw [if_neg hc] at hmap
      subst hmap
      simp only [Bool.and_eq_true, beq_iff_eq, decide_eq_true_eq, not_and] at hc
      exact absurd hlive (hc hsd)
  refine ⟨h1, ?_⟩
  intro t tok s' hnt hval hsd
  have hmem := List.mem_of_find?_eq_some hval
  have hp := List.find?_some hval
  simp only [Bool.and_eq_true, beq_iff_eq, decide_eq_true_eq] at hp
  exact h1 s' hmem hsd (lt_of_le_of_lt hnt hp.2)

/-- Store for the C6 witness: one user and one live session of its DID. -/
def stC6 : DBState :=
  ⟨[⟨1, "did:plc:a", "a.test", "", "user"⟩], [], [],
   [⟨1, "tk", "did:plc:a", "a.test", "", "g1", 1, 0, 9⟩], []⟩

/-- C6 witness: after the concrete username update, validating the live
session returns the updated row, whose username snapshot the theorem pins
to the new value. -/
theorem claim_C6_username_propagation_witness :
    sessionValidate (updateUserUsername stC6 0 1 "alice") 0 "tk" =
      some ⟨1, "tk", "did:plc:a", "a.test", "alice", "g1", 1, 0, 9⟩
    ∧ (⟨1, "tk", "did:plc:a", "a.test", "alice", "g1", 1, 0, 9⟩ : SessionRow).username
        = "alice" :=
  ⟨by decide,
   (claim_C6_username_propagation stC6 0 1 "alice"
      ⟨1, "did:plc:a", "a.test", "", "user"⟩ (by decide)).2
     0 "tk" ⟨1, "tk", "did:plc:a", "a.test", "alice", "g1", 1, 0, 9⟩
     (Nat.le_refl 0) (by decide) rfl⟩

/-- Helper: `DestroyOne` always returns the store with the targeted row
filtered out as its first component. -/
theorem sessionDestroyOne_fst (m : MgrCfg) (st : DBState) (now : Nat)
    (groupID : String) (sessionID : Int) (wasActive : Bool) :
    (sessionDestroyOne m st now groupID sessionID wasActive).1 =
      { st with sessions :=
          st.sessions.filter (fun s => !(s.id == sessionID && s.groupId == groupID)) } := by
  simp only [sessionDestroyOne]
  split
  · rfl
  · split <;> rfl

/-- C7: `DestroyOne` removes exactly the row with the given session id in
the given group; with `wasActive = false` it returns no cookie; with
`wasActive = true` it returns the clear-cookie when no live session of the
group remains, and otherwise a cookie for a remaining live session of the
group with the least creation time. -/
theorem claim_C7_destroyOne (m : MgrCfg) (st : DBState) (now : Nat)
    (groupID : String) (sessionID : Int) (wasActive : Bool) :
    (∀ s, s ∈ (sessionDestroyOne m st now groupID sessionID wasActive).1.sessions ↔
        s ∈ st.sessions ∧ ¬(s.id = sessionID ∧ s.groupId = groupID))
    ∧ (wasActive = false →
        (sessionDestroyOne m st now groupID sessionID wasActive).2 = none)
    ∧ (wasActive = true →
        (∀ s ∈ (sessionDestroyOne m st now groupID sessionID wasActive).1.sessions,
            s.groupId = groupID → s.expiresAt ≤ now) →
          (sessionDestroyOne m st now groupID sessionID wasActive).2 =
            some (clearCookie m))
    ∧ (wasActive = true →
        ∀ s0 ∈ (sessionDestroyOne m st now groupID sessionID wasActive).1.sessions,
          s0.groupId = groupID → now < s0.expiresAt →
          ∃ s, s ∈ (sessionDestroyOne m st now groupID sessionID wasActive).1.sessions
            ∧ s.groupId = groupID ∧ now < s.expiresAt
            ∧ (sessionDestroyOne m st now groupID sessionID wasActive).2 =
                some (makeCookie m s.token s.expiresAt)
            ∧ ∀ s₂ ∈ (sessionDestroyOne m st now groupID sessionID wasActive).1.sessions,
                s₂.groupId = groupID → now < s₂.expiresAt →
                s.createdAt ≤ s₂.createdAt) := by
  have hfst := sessionDestroyOne_fst m st now groupID sessionID wasActive
  refine ⟨?_, ?_, ?_, ?_⟩
  · intro s
    rw [hfst]
    simp only [List.mem_filter, Bool.not_eq_true', Bool.and_eq_false_iff,
      beq_eq_false_iff_ne, ne_eq]
    constructor
    · rintro ⟨hmem, h⟩
      refine ⟨hmem, ?_⟩
      rintro ⟨h1, h2⟩
      rcases h with h | h
      · exact h h1
      · exact h h2
    · rintro ⟨hmem, h⟩
      refine ⟨hmem, ?_⟩
      by_cases h1 : s.id = sessionID
      · exact Or.inr (fun h2 => h ⟨h1, h2⟩)
      · exact Or.inl h1
  · intro hw
    subst hw
    unfold sessionDestroyOne
    rfl
  · intro hw hall
    subst hw
    rw [hfst] at hall
    have hempty : ((st.sessions.filter
        (fun s => !(s.id == sessionID && s.groupId == groupID))).filter
        (fun s => s.groupId == groupID && decide (now < s.expiresAt))) = [] := by
      rw [List.filter_eq_nil_iff]
      intro a ha
      simp only [Bool.and_eq_true, beq_iff_eq, decide_eq_true_eq, not_and]
      intro hg hlt
      exact absurd hlt (Nat.not_lt.mpr (hall a ha hg))
    simp only [sessionDestroyOne]
    rw [if_neg (show ¬((!true) = true) by simp)]
    rw [hempty]
    simp [List.argmin_nil]
  · intro hw s0 hs0 hg0 hlive0
    subst hw
    rw [hfst] at hs0
    have hL : s0 ∈ (st.sessions.filter
        (fun s => !(s.id == sessionID && s.groupId == groupID))).filter
        (fun s => s.groupId == groupID && decide (now < s.expiresAt)) := by
      rw [List.mem_filter]
      exact ⟨hs0, by simp [hg0, hlive0]⟩
    obtain ⟨s, hsmin⟩ : ∃ s, s ∈ ((st.sessions.filter
        (fun s => !(s.id == sessionID && s.groupId == groupID))).filter
        (fun s => s.groupId == groupID && decide (now < s.expiresAt))).argmin
        (fun s => s.createdAt) := by
      rcases h : ((st.sessions.filter
          (fun s => !(s.id == sessionID && s.groupId == groupID))).filter
          (fun s => s.groupId == groupID && decide (now < s.expiresAt))).argmin
          (fun s => s.createdAt) with _ | s
      · rw [List.argmin_eq_none] at h
        rw [h] at hL
        simp at hL
      · exact ⟨s, by rw [Option.mem_def, h]⟩
    have hsmem := List.argmin_mem hsmin
    rw [List.mem_filter] at hsmem
    obtain ⟨hsmem1, hsprop⟩ := hsmem
    simp only [Bool.and_eq_true, beq_iff_eq, decide_eq_true_eq] at hsprop
    refine ⟨s, ?_, hsprop.1, hsprop.2, ?_, ?_⟩
    · rw [hfst]
      exact hsmem1
    · rw [Option.mem_def] at hsmin
      simp only [sessionDestroyOne]
      rw [if_neg (show ¬((!true) = true) by simp)]
      rw [hsmin]
    · intro s₂ hs₂ hg₂ hlive₂
      rw [hfst] at hs₂
      have hs₂L : s₂ ∈ (st.sessions.filter
          (fun s => !(s.id == sessionID && s.groupId == groupID))).filter
          (fun s => s.groupId == groupID && decide (now < s.expiresAt)) := by
        rw [List.mem_filter]
        exact ⟨hs₂, by simp [hg₂, hlive₂]⟩
      exact List.le_of_mem_argmin hs₂L hsmin

/-- Store for the C7 witness: one group holding two live sessions. -/
def stC7 : DBState :=
  ⟨[], [], [],
   [⟨1, "t1", "d1", "h1", "", "g1", 1, 0, 9⟩,
    ⟨2, "t2", "d2", "h2", "", "g1", 2, 3, 9⟩], []⟩

/-- C7 witness: destroying the active session of the concrete group yields
a cookie for a remaining live session with the least creation time. -/
theorem claim_C7_destroyOne_witness :
    ∃ s, s ∈ (sessionDestroyOne mgr0 stC7 4 "g1" 1 true).1.sessions
      ∧ s.groupId = "g1" ∧ 4 < s.expiresAt
      ∧ (sessionDestroyOne mgr0 stC7 4 "g1" 1 true).2 =
          some (makeCookie mgr0 s.token s.expiresAt)
      ∧ ∀ s₂ ∈ (sessionDestroyOne mgr0 stC7 4 "g1" 1 true).1.sessions,
          s₂.groupId = "g1" → 4 < s₂.expiresAt → s.createdAt ≤ s₂.createdAt :=
  (claim_C7_destroyOne mgr0 stC7 4 "g1" 1 true).2.2.2 rfl
    ⟨2, "t2", "d2", "h2", "", "g1", 2, 3, 9⟩ (by decide) rfl (by decide)

/-- C8: seed-owner protection.  For any admin-surface caller, a well-formed
role-change request targeting the user whose DID equals the configured
`OWNER_DID` answers 403 with the store unchanged, and a delete request
targeting the same user answers 403 with the store unchanged. -/
theorem claim_C8_seed_owner (st : DBState) (ownerDID : String)
    (caller : UserRow) (id : Int) (role : String) (u : UserRow)
    (hfind : st.users.find? (fun x => x.id == id) = some u)
    (hdid : u.did = ownerDID)
    (hrole : role = "user" ∨ role = "admin" ∨ role = "owner") :
    handleUpdateUserRole st ownerDID caller id role = (403, st)
    ∧ handleDeleteUser st ownerDID caller id = (403, st) := by
  have hmem := List.mem_of_find?_eq_some hfind
  have hid : (u.id == id) = true := by
    have h := List.find?_some hfind
    simpa using h
  constructor
  · have hvalid : (role == "user" || role == "admin" || role == "owner") = true := by
      rcases hrole with h | h | h <;> simp [h]
    unfold handleUpdateUserRole
    rw [if_neg (by simp [hvalid])]
    by_cases hc : (caller.role != "owner" && role != "user") = true
    · rw [if_pos hc]
    · rw [if_neg hc]
      rw [if_pos (show (st.users.any fun v => v.id == id && v.did == ownerDID) = true
        from List.any_eq_true.mpr ⟨u, hmem, by simp [hid, hdid]⟩)]
  · unfold handleDeleteUser
    by_cases hself : (id == caller.id) = true
    · rw [if_pos hself]
    · rw [if_neg hself, hfind]
      dsimp only
      rw [if_pos (show (u.did == ownerDID) = true by simp [hdid])]

/-- C8 witness: an owner caller targeting the seed owner by id; both the
role change and the delete answer 403 and leave the store unchanged. -/
theorem claim_C8_seed_owner_witness :
    handleUpdateUserRole
        ⟨[⟨1, "did:plc:own", "own.test", "", "owner"⟩,
          ⟨2, "did:plc:b", "b.test", "", "admin"⟩], [], [], [], []⟩
        "did:plc:own" ⟨2, "did:plc:b", "b.test", "", "admin"⟩ 1 "user" =
      (403, ⟨[⟨1, "did:plc:own", "own.test", "", "owner"⟩,
              ⟨2, "did:plc:b", "b.test", "", "admin"⟩], [], [], [], []⟩)
    ∧ handleDeleteUser
        ⟨[⟨1, "did:plc:own", "own.test", "", "owner"⟩,
          ⟨2, "did:plc:b", "b.test", "", "admin"⟩], [], [], [], []⟩
        "did:plc:own" ⟨2, "did:plc:b", "b.test", "", "admin"⟩ 1 =
      (403, ⟨[⟨1, "did:plc:own", "own.test", "", "owner"⟩,
              ⟨2, "did:plc:b", "b.test", "", "admin"⟩], [], [], [], []⟩) :=
  claim_C8_seed_owner
    ⟨[⟨1, "did:plc:own", "own.test", "", "owner"⟩,
      ⟨2, "did:plc:b", "b.test", "", "admin"⟩], [], [], [], []⟩
    "did:plc:own" ⟨2, "did:plc:b", "b.test", "", "admin"⟩ 1 "user"
    ⟨1, "did:plc:own", "own.test", "", "owner"⟩ (by decide) rfl (Or.inl rfl)

/-- Helper: every response the disabled-service gate emits is a 302 or a
503. -/
theorem disabledGate_status (st : DBState) (publicURL : String)
    (req : AuthRequest) (r : AuthResponse)
    (h : disabledGate st publicURL req = some r) :
    r.status = 302 ∨ r.status = 503 := by
  unfold disabledGate at h
  split at h
  · simp at h
  · split at h
    · simp at h
    · split at h
      · simp at h
      · split at h
        · rw [Option.some.injEq] at h
          subst h
          exact Or.inl rfl
        · rw [Option.some.injEq] at h
          subst h
          exact Or.inr rfl

/-- Helper: a policy deny answers 302 (browser) or 403 (API). -/
theorem denyResponse_status (publicURL : String) (req : AuthRequest) :
    (denyResponse publicURL req).status = 302 ∨
    (denyResponse publicURL req).status = 403 := by
  unfold denyResponse
  split
  · exact Or.inl rfl
  · exact Or.inr rfl

/-- C2: forward-auth service gate.  Whenever the forwarded host maps to a
service with `enabled = false`, the response is terminal and independent of
any cookie, session or policy state — in particular owner sessions do not
bypass it: a 302 redirect to `/disabled?service=<name>` on the primary
public URL for clients whose effective Accept declares `text/html`, and a
503 with no body, location or headers otherwise. -/
theorem claim_C2_disabled_gate (st : DBState) (now : Nat) (publicURL : String)
    (req : AuthRequest) (svc : ServiceRow)
    (hhost : req.xForwardedHost ≠ "")
    (hsvc : getServiceByHost st req.xForwardedHost = some svc)
    (hdis : svc.enabled = false) :
    handleAuth st now publicURL req =
      if strContainsSub (effectiveAccept req) "text/html" then
        { status := 302,
          location := some (publicURL ++ "/disabled?service=" ++ queryEscape svc.name),
          headers := [] }
      else { status := 503, location := none, headers := [] } := by
  by_cases hhtml : strContainsSub (effectiveAccept req) "text/html" = true
  · rw [if_pos hhtml]
    have hgate : disabledGate st publicURL req =
        some { status := 302,
               location := some (publicURL ++ "/disabled?service=" ++ queryEscape svc.name),
               headers := [] } := by
      unfold disabledGate
      rw [if_neg (by simp [hhost]), hsvc]
      dsimp only
      rw [if_neg (by simp [hdis]), if_pos hhtml]
    unfold handleAuth
    rw [hgate]
  · rw [if_neg hhtml]
    have hgate : disabledGate st publicURL req =
        some { status := 503, location := none, headers := [] } := by
      unfold disabledGate
      rw [if_neg (by simp [hhost]), hsvc]
      dsimp only
      rw [if_neg (by simp [hdis]), if_neg hhtml]
    unfold handleAuth
    rw [hgate]

/-- Disabled service fixture. -/
def svcC2 : ServiceRow :=
  ⟨1, "gitea", "Gitea", "", "https://gitea.example.test", "", "admin", false, false⟩

/-- Store holding the disabled service and a live owner session. -/
def stC2 : DBState :=
  ⟨[⟨1, "did:plc:own", "own.test", "", "owner"⟩], [svcC2], [],
   [⟨1, "tk", "did:plc:own", "own.test", "", "g1", 1, 0, 9⟩], []⟩

/-- HTML-accepting request to the disabled service carrying the owner's
valid session cookie. -/
def reqC2 : AuthRequest :=
  ⟨"gitea.example.test", "", "text/html", "https", "/x", "", "", some "tk"⟩

/-- C2 witness: the owner's valid session does not bypass the gate; the
HTML request is answered with the disabled-notice redirect. -/
theorem claim_C2_disabled_gate_witness :
    handleAuth stC2 0 "http://p" reqC2 =
      { status := 302,
        location := some ("http://p" ++ "/disabled?service=" ++ queryEscape "Gitea"),
        headers := [] } := by
  rw [claim_C2_disabled_gate stC2 0 "http://p" reqC2 svcC2 (by decide) (by decide) rfl]
  rw [if_pos (by decide)]
  rfl

/-- Request with no session and an Authorization header, answered 200. -/
def reqC3 : AuthRequest :=
  ⟨"", "", "application/json", "", "", "Bearer pat-token", "", none⟩

/-- C3 counterexample: the Authorization-header passthrough answers 200
with no identity headers at all, so a 200 decision without an
`X-User-Role` header exists. -/
theorem claim_C3_counterexample :
    (handleAuth st0 0 "http://p" reqC3).status = 200
    ∧ getHeader (handleAuth st0 0 "http://p" reqC3) "X-User-Role" = none := by
  constructor
  · decide
  · decide

/-- C3 (amended): every 200 issued from the session branch with a non-empty
forwarded host carries a non-empty `X-User-Role` header (the
Authorization-header passthrough and the empty-host allow return 200
without it). -/
theorem claim_C3_role_header (st : DBState) (now : Nat) (publicURL : String)
    (req : AuthRequest) (tok : String) (sess : SessionRow)
    (hck : req.cookieValue = some tok) (htok : tok ≠ "")
    (hval : sessionValidate st now tok = some sess)
    (hhost : req.xForwardedHost ≠ "")
    (h200 : (handleAuth st now publicURL req).status = 200) :
    ∃ role, getHeader (handleAuth st now publicURL req) "X-User-Role" = some role
      ∧ role ≠ "" := by
  cases hdg : disabledGate st publicURL req with
  | some r =>
    have heq : handleAuth st now publicURL req = r := by
      unfold handleAuth
      rw [hdg]
    rw [heq] at h200
    rcases disabledGate_status st publicURL req r hdg with h | h <;> omega
  | none =>
    have hsb : sessionBranch st now publicURL req =
        match getUserServiceRole st sess.did req.xForwardedHost with
        | .error _ => some (denyResponse publicURL req)
        | .ok role =>
          if role == "" then some (denyResponse publicURL req)
          else some { status := 200, location := none,
                      headers := ("X-User-Role", role) :: identityHeaders sess } := by
      unfold sessionBranch
      rw [hck]
      dsimp only
      rw [if_neg (by simp [htok]), hval]
      dsimp only
      rw [if_pos (show (req.xForwardedHost != "") = true by simp [hhost])]
    cases hrole : getUserServiceRole st sess.did req.xForwardedHost with
    | error e =>
      have heq : handleAuth st now publicURL req = denyResponse publicURL req := by
        unfold handleAuth
        rw [hdg, hsb, hrole]
      rw [heq] at h200
      rcases denyResponse_status publicURL req with h | h <;> omega
    | ok role =>
      by_cases hr0 : (role == "") = true
      · have heq : handleAuth st now publicURL req = denyResponse publicURL req := by
          unfold handleAuth
          rw [hdg, hsb, hrole]
          dsimp only
          rw [if_pos hr0]
        rw [heq] at h200
        rcases denyResponse_status publicURL req with h | h <;> omega
      · have heq : handleAuth st now publicURL req =
            { status := 200, location := none,
              headers := ("X-User-Role", role) :: identityHeaders sess } := by
          unfold handleAuth
          rw [hdg, hsb, hrole]
          dsimp only
          rw [if_neg hr0]
        refine ⟨role, ?_, by simpa using hr0⟩
        rw [heq]
        unfold getHeader
        rw [List.find?_cons_of_pos _ (by simp)]
        rfl

/-- Enabled service fixture for the allow path. -/
def svcC3 : ServiceRow :=
  ⟨1, "gitea", "Gitea", "", "https://gitea.example.test", "", "admin", true, false⟩

/-- Store with an owner, the enabled service and a live session. -/
def stC3 : DBState :=
  ⟨[⟨1, "did:plc:a", "a.test", "alice", "owner"⟩], [svcC3], [],
   [⟨1, "tk", "did:plc:a", "a.test", "alice", "g1", 1, 0, 9⟩], []⟩

/-- Authorized request from the session's browser to the service host. -/
def reqC3ok : AuthRequest :=
  ⟨"gitea.example.test", "", "text/html", "https", "/", "", "", some "tk"⟩

/-- C3 witness: a concrete session-authorized 200 decision whose
`X-User-Role` header is non-empty. -/
theorem claim_C3_role_header_witness :
    ∃ role, getHeader (handleAuth stC3 0 "http://p" reqC3ok) "X-User-Role" =
      some role ∧ role ≠ "" :=
  claim_C3_role_header stC3 0 "http://p" reqC3ok "tk"
    ⟨1, "tk", "did:plc:a", "a.test", "alice", "g1", 1, 0, 9⟩
    rfl (by decide) (by decide) (by decide) (by decide)

/-- Store for the policy claim: an owner, a regular user and one service
whose URL contains neither tested host. -/
def stC1 : DBState :=
  ⟨[⟨1, "did:plc:own", "own.test", "", "owner"⟩,
    ⟨2, "did:plc:u", "u.test", "", "user"⟩],
   [⟨1, "gitea", "Gitea", "", "https://gitea.example.test", "", "admin", true, false⟩],
   [], [], []⟩

/-- C1 counterexample: no service URL contains the host
`wiki.example.test`, yet the owner's verdict is `admin`, not the empty
(deny) role — the `COALESCE(s.admin_role, 'admin')` default fires on the
unmatched left join. -/
theorem claim_C1_counterexample :
    getServiceByHost stC1 "wiki.example.test" = none
    ∧ getUserServiceRole stC1 "did:plc:own" "wiki.example.test" = .ok "admin"
    ∧ getUserServiceRole stC1 "did:plc:own" "wiki.example.test" ≠ .ok "" := by
  refine ⟨by decide, rfl, ?_⟩
  intro h
  rw [show getUserServiceRole stC1 "did:plc:own" "wiki.example.test" =
    Except.ok "admin" from rfl] at h
  exact absurd (Except.ok.inj h) (by decide)

/-- C1 (amended): when no service URL contains the host, the verdict is the
empty role (deny) for users whose role is neither `owner` nor `admin`,
while `owner`/`admin` users receive the coalesce default `admin`. -/
theorem claim_C1_policy_no_match (st : DBState) (did host : String)
    (u : UserRow)
    (hu : st.users.find? (fun x => x.did == did) = some u)
    (hnone : getServiceByHost st host = none) :
    getUserServiceRole st did host =
      .ok (if u.role = "owner" ∨ u.role = "admin" then "admin" else "") := by
  unfold getUserServiceRole
  rw [hu]
  dsimp only
  rw [hnone]
  dsimp only
  by_cases hpos : u.role = "owner" ∨ u.role = "admin"
  · rw [if_pos (show (u.role == "owner" || u.role == "admin") = true by
      rcases hpos with h | h <;> simp [h]), if_pos hpos]
  · rw [if_neg (show ¬((u.role == "owner" || u.role == "admin") = true) by
      simp only [Bool.or_eq_true, beq_iff_eq]; exact hpos)]
    rw [if_neg (by decide), if_neg hpos]

/-- C1 witness: the regular user with no grant and no matching service is
denied with the empty role. -/
theorem claim_C1_policy_no_match_witness :
    getUserServiceRole stC1 "did:plc:u" "wiki.example.test" = .ok "" := by
  rw [claim_C1_policy_no_match stC1 "did:plc:u" "wiki.example.test"
    ⟨2, "did:plc:u", "u.test", "", "user"⟩ (by decide) (by decide)]
  rw [if_neg (by decide)]

end NokNok
